import Mathlib

/-
Verification of the poll lifecycle and voting data model of alx-polly.

The development shallowly embeds the server actions of
app/lib/actions/poll-actions.ts (both variants present in the source file)
together with the admin page gate of app/(dashboard)/admin/page.tsx.
The relational store (Supabase) is modelled as an explicit database value;
each server action is a function from the database, the ambient session and
an optional store failure to the resulting database, the list of
revalidated paths, and the value returned to the caller.
-/

/-- A row of the polls table: id and created_at are store generated,
user_id is the creating user, options is the option list inserted by
createPoll (after the filter(Boolean) step). -/
structure Poll where
  id : Nat
  user_id : Nat
  question : String
  options : List String
  created_at : Nat
deriving Repr, DecidableEq

/-- A row of the votes table, as inserted by submitVote: poll_id, an
optional user_id (null for anonymous voters), the chosen option_index
(inserted as given, an arbitrary integer), and the insertion time. -/
structure Vote where
  poll_id : Nat
  user_id : Option Nat
  option_index : Int
  cast_at : Nat
deriving Repr, DecidableEq

/-- The relational store: the polls and votes tables, the next
store-generated poll id, and the store clock used for created_at. -/
structure DB where
  polls : List Poll
  votes : List Vote
  nextId : Nat
  now : Nat
deriving Repr, DecidableEq

/-- The acting user as resolved server-side by supabase.auth.getUser().
The isAdmin field is the admin claim of the Identity Provider contract
(spec section 6: getCurrentUser returns an id and an optional isAdmin). -/
structure User where
  id : Nat
  isAdmin : Bool
deriving Repr, DecidableEq

/-- The value a mutating server action returns to its caller: the actions
return an object whose only field is error (null on success). -/
structure ActionRet where
  error : Option String
deriving Repr, DecidableEq

/-- The full effect of a mutating server action: the database after the
call, the paths passed to revalidatePath, and the value returned to the
caller. -/
structure ActionOut where
  db : DB
  revalidated : List String
  ret : ActionRet
deriving Repr, DecidableEq

/-- The value getPollById returns: a poll or null, and an error or null. -/
structure GetPollRet where
  poll : Option Poll
  error : Option String
deriving Repr, DecidableEq

/-- The value getUserPolls returns: a list of polls and an error or null. -/
structure GetPollsRet where
  polls : List Poll
  error : Option String
deriving Repr, DecidableEq

/-- Embedding of createPoll (poll-actions.ts, first variant, lines
204-242 of the bundled source). Reads question and options from the form
data, drops empty option strings (filter(Boolean)), validates that the
question is non-empty and at least two options remain, requires an
authenticated user, inserts exactly one row into polls, revalidates
/polls and returns error null; a store failure is surfaced as a fixed
generic message. -/
def createPoll (db : DB) (session : Option User) (storeFail : Option String)
    (question : String) (options : List String) : ActionOut :=
  if question = "" ∨ (options.filter (fun s => !s.isEmpty)).length < 2 then
    ⟨db, [], ⟨some ("Please provide a question and at least two options.")⟩⟩
  else
    match session with
    | none => ⟨db, [], ⟨some ("You must be logged in to create a poll.")⟩⟩
    | some user =>
      match storeFail with
      | some _ => ⟨db, [], ⟨some ("Failed to create the poll.")⟩⟩
      | none =>
        ⟨⟨db.polls ++ [⟨db.nextId, user.id, question,
            options.filter (fun s => !s.isEmpty), db.now⟩],
          db.votes, db.nextId + 1, db.now⟩,
         ["/polls"], ⟨none⟩⟩

/-- Descending sort on created_at, the embedding of
order("created_at", ascending false). -/
def sortByNewest (l : List Poll) : List Poll :=
  l.mergeSort (fun a b => decide (b.created_at ≤ a.created_at))

/-- Embedding of getUserPolls (poll-actions.ts lines 254-270): requires a
session user, selects the rows whose user_id equals the session user's
id ordered newest-first, and returns them with error null; with no user
it returns an empty list and an error; a store failure is surfaced as a
fixed generic message with an empty list. -/
def getUserPolls (db : DB) (session : Option User)
    (storeFail : Option String) : GetPollsRet :=
  match session with
  | none => ⟨[], some ("Not authenticated")⟩
  | some user =>
    match storeFail with
    | some _ => ⟨[], some ("Failed to fetch polls.")⟩
    | none =>
      ⟨sortByNewest (db.polls.filter (fun p => p.user_id == user.id)), none⟩

/-- Embedding of getPollById (poll-actions.ts lines 283-293): selects the
single row whose id matches; the session is never consulted. single()
errors unless exactly one row matches, and any error (including a store
failure) is mapped to the one message, so a store failure and a missing
poll are indistinguishable to the caller. -/
def getPollById (db : DB) (session : Option User) (storeFail : Option String)
    (id : Nat) : GetPollRet :=
  match storeFail with
  | some _ => ⟨none, some ("Poll not found.")⟩
  | none =>
    match db.polls.filter (fun p => p.id == id) with
    | [p] => ⟨some p, none⟩
    | _ => ⟨none, some ("Poll not found.")⟩

/-- Embedding of submitVote (poll-actions.ts lines 306-324): reads the
session user (voting is allowed anonymously), and inserts the row
directly with no bounds check on optionIndex and no check that the poll
exists in the service code. The only existence check is the foreign key
of the votes table. Modelled from the spec: poll_id references an
existing Poll (spec section 3); the votes schema lives in
/supabase/migrations, which is not part of the application source. Any
insert failure is surfaced as a fixed generic message. -/
def submitVote (db : DB) (session : Option User) (storeFail : Option String)
    (pollId : Nat) (optionIndex : Int) : ActionOut :=
  if storeFail.isSome || db.polls.all (fun p => p.id != pollId) then
    ⟨db, [], ⟨some ("Failed to submit vote.")⟩⟩
  else
    ⟨⟨db.polls,
      db.votes ++ [⟨pollId, session.map (fun u => u.id), optionIndex, db.now⟩],
      db.nextId, db.now⟩,
     [], ⟨none⟩⟩

/-- Modelled from the spec: the row-level delete policy of the polls
table, which lives in /supabase/migrations and is not part of the
application source. Spec section 4: only the poll owner may delete via
this path, and a separate administrative path may delete any poll, gated
by the isAdmin claim of the acting user; spec section 6: ownership and
admin-only deletion are enforced at the store policy layer. -/
def rlsMayDelete (session : Option User) (p : Poll) : Bool :=
  match session with
  | none => false
  | some u => u.id == p.user_id || u.isAdmin

/-- Embedding of deletePoll (poll-actions.ts lines 336-346): issues a
delete filtered only on id; the service code itself performs no
ownership check (the ambient session reaches the store, whose row-level
policy rlsMayDelete decides which matching rows are actually removed).
On success it revalidates /polls and returns error null; a store failure
is surfaced as a fixed generic message. -/
def deletePoll (db : DB) (session : Option User) (storeFail : Option String)
    (id : Nat) : ActionOut :=
  match storeFail with
  | some _ => ⟨db, [], ⟨some ("Failed to delete poll.")⟩⟩
  | none =>
    ⟨⟨db.polls.filter (fun p => !(p.id == id && rlsMayDelete session p)),
      db.votes, db.nextId, db.now⟩,
     ["/polls"], ⟨none⟩⟩

/-- Embedding of updatePoll (poll-actions.ts, first variant, lines
359-392): same shape validation as createPoll, requires an authenticated
user, then issues an update filtered on id equality and on user_id
equality with the acting user, so a non-owner call matches zero rows.
On success it revalidates /polls and the poll page and returns error
null; a store failure is surfaced as a fixed generic message. -/
def updatePoll (db : DB) (session : Option User) (storeFail : Option String)
    (pollId : Nat) (question : String) (options : List String) : ActionOut :=
  if question = "" ∨ (options.filter (fun s => !s.isEmpty)).length < 2 then
    ⟨db, [], ⟨some ("Please provide a question and at least two options.")⟩⟩
  else
    match session with
    | none => ⟨db, [], ⟨some ("You must be logged in to update a poll.")⟩⟩
    | some user =>
      match storeFail with
      | some _ => ⟨db, [], ⟨some ("Failed to update poll.")⟩⟩
      | none =>
        ⟨⟨db.polls.map (fun p =>
            if p.id == pollId && p.user_id == user.id then
              ⟨p.id, p.user_id, question,
               options.filter (fun s => !s.isEmpty), p.created_at⟩
            else p),
          db.votes, db.nextId, db.now⟩,
         ["/polls", "/polls/" ++ toString pollId], ⟨none⟩⟩

/-- Embedding of the second createPoll variant (poll-actions.ts lines
402-440): same validation, authentication and insert as the first
variant, but a store failure is surfaced to the caller as the store's
own error message (return error.message) rather than a generic one. -/
def createPollV2 (db : DB) (session : Option User) (storeFail : Option String)
    (question : String) (options : List String) : ActionOut :=
  if question = "" ∨ (options.filter (fun s => !s.isEmpty)).length < 2 then
    ⟨db, [], ⟨some ("Please provide a question and at least two options.")⟩⟩
  else
    match session with
    | none => ⟨db, [], ⟨some ("You must be logged in to create a poll.")⟩⟩
    | some user =>
      match storeFail with
      | some m => ⟨db, [], ⟨some m⟩⟩
      | none =>
        ⟨⟨db.polls ++ [⟨db.nextId, user.id, question,
            options.filter (fun s => !s.isEmpty), db.now⟩],
          db.votes, db.nextId + 1, db.now⟩,
         ["/polls"], ⟨none⟩⟩

/-- Embedding of the second updatePoll variant (poll-actions.ts lines
448-483): same validation, authentication and ownership-filtered update
as the first variant, but a store failure is surfaced as the store's own
error message (return error.message) and no path is revalidated. -/
def updatePollV2 (db : DB) (session : Option User) (storeFail : Option String)
    (pollId : Nat) (question : String) (options : List String) : ActionOut :=
  if question = "" ∨ (options.filter (fun s => !s.isEmpty)).length < 2 then
    ⟨db, [], ⟨some ("Please provide a question and at least two options.")⟩⟩
  else
    match session with
    | none => ⟨db, [], ⟨some ("You must be logged in to update a poll.")⟩⟩
    | some user =>
      match storeFail with
      | some m => ⟨db, [], ⟨some m⟩⟩
      | none =>
        ⟨⟨db.polls.map (fun p =>
            if p.id == pollId && p.user_id == user.id then
              ⟨p.id, p.user_id, question,
               options.filter (fun s => !s.isEmpty), p.created_at⟩
            else p),
          db.votes, db.nextId, db.now⟩,
         [], ⟨none⟩⟩

/-- Embedding of the admin page access gate (admin/page.tsx, both
variants): the page redirects to /login unless window.localStorage has a
truthy isAdmin entry. The argument is the value of
localStorage.getItem, a string or null; a missing entry or the empty
string is falsy and causes the redirect. The result is true when the
run redirects away from the admin view. -/
def adminGateRedirects (localStorageIsAdmin : Option String) : Bool :=
  match localStorageIsAdmin with
  | none => true
  | some s => s.isEmpty

/-- Under distinct poll ids, filtering on id equality conjoined with any
further test keeps exactly the matching row when it passes the test. -/
theorem filter_id_and_of_nodup (l : List Poll) (P : Poll) (q : Poll → Bool)
    (h : (l.map Poll.id).Nodup) (hP : P ∈ l) :
    l.filter (fun p => p.id == P.id && q p) = if q P then [P] else [] := by
  induction l with
  | nil => cases hP
  | cons a t ih =>
    simp only [List.map_cons, List.nodup_cons] at h
    rcases List.mem_cons.mp hP with rfl | hPt
    · have ht : t.filter (fun p => p.id == P.id && q p) = [] := by
        apply List.filter_eq_nil_iff.mpr
        intro b hb
        have hbid : b.id ≠ P.id := by
          intro he
          exact h.1 (he ▸ List.mem_map_of_mem Poll.id hb)
        simp [beq_eq_false_iff_ne.mpr hbid]
      by_cases hq : q P
      · simp [List.filter_cons, hq, ht]
      · simp [List.filter_cons, hq, ht]
    · have ha : a.id ≠ P.id := by
        intro he
        exact h.1 (he ▸ List.mem_map_of_mem Poll.id hPt)
      rw [List.filter_cons]
      simp only [beq_eq_false_iff_ne.mpr ha, Bool.false_and, ite_false]
      exact ih h.2 hPt

/-- Under distinct poll ids, filtering on id equality keeps exactly the
matching row. -/
theorem filter_id_of_nodup (l : List Poll) (P : Poll)
    (h : (l.map Poll.id).Nodup) (hP : P ∈ l) :
    l.filter (fun p => p.id == P.id) = [P] := by
  have h2 := filter_id_and_of_nodup l P (fun _ => true) h hP
  simpa using h2

/-- Under distinct poll ids, a member sharing an id with P is P. -/
theorem eq_of_mem_id_eq (l : List Poll) (P p : Poll)
    (h : (l.map Poll.id).Nodup) (hP : P ∈ l) (hp : p ∈ l)
    (hid : p.id = P.id) : p = P := by
  have hf := filter_id_of_nodup l P h hP
  have hmem : p ∈ l.filter (fun x => x.id == P.id) :=
    List.mem_filter.mpr ⟨hp, by simp [hid]⟩
  rw [hf] at hmem
  simpa using hmem

/-- A map whose function fixes every member is the identity. -/
theorem map_eq_self_of (l : List Poll) (g : Poll → Poll)
    (h : ∀ p ∈ l, g p = p) : l.map g = l := by
  induction l with
  | nil => rfl
  | cons a t ih =>
    rw [List.map_cons, h a (List.mem_cons_self a t),
      ih (fun p hp => h p (List.mem_cons_of_mem a hp))]

/-- C2: refuted by the code. submitVote performs no bounds check on the
option index, so at a poll with two options a vote with index 5 is
inserted as a Vote row and the call reports success instead of failing
with a validation error. -/
theorem c2_submitVote_out_of_range_inserts :
    (submitVote ⟨[⟨1, 10, "Best color?", ["Red", "Blue"], 5⟩], [], 2, 6⟩
        none none 1 5).ret.error = none ∧
    (submitVote ⟨[⟨1, 10, "Best color?", ["Red", "Blue"], 5⟩], [], 2, 6⟩
        none none 1 5).db.votes = [⟨1, none, 5, 6⟩] :=
  ⟨rfl, rfl⟩

/-- C3: refuted by the code. The admin view gate reads the client-stored
localStorage isAdmin entry, so two runs that differ only in that
client-stored flag get different authorization outcomes (redirect away
versus admin view shown); the decision is not resolved from the Identity
Provider. -/
theorem c3_admin_gate_reads_client_flag :
    adminGateRedirects none = true ∧
    adminGateRedirects (some ("true")) = false ∧
    adminGateRedirects none ≠ adminGateRedirects (some ("true")) := by
  refine ⟨rfl, rfl, ?_⟩
  decide

/-- C5: createPoll fails with the validation message and persists nothing
whenever the question is empty or fewer than two non-empty options
remain after discarding blank (empty) entries. -/
theorem c5_createPoll_validation (db : DB) (session : Option User)
    (storeFail : Option String) (q : String) (opts : List String)
    (h : q = "" ∨ (opts.filter (fun s => !s.isEmpty)).length < 2) :
    createPoll db session storeFail q opts
      = ⟨db, [],
          ⟨some ("Please provide a question and at least two options.")⟩⟩ := by
  simp only [createPoll, if_pos h]

/-- Witness for C5 at the two inputs named in the claim. -/
theorem c5_createPoll_validation_witness :
    createPoll ⟨[], [], 1, 0⟩ none none "" ["a", "b"]
      = ⟨⟨[], [], 1, 0⟩, [],
          ⟨some ("Please provide a question and at least two options.")⟩⟩ ∧
    createPoll ⟨[], [], 1, 0⟩ none none "Q?" ["a"]
      = ⟨⟨[], [], 1, 0⟩, [],
          ⟨some ("Please provide a question and at least two options.")⟩⟩ :=
  ⟨c5_createPoll_validation ⟨[], [], 1, 0⟩ none none "" ["a", "b"]
      (Or.inl rfl),
   c5_createPoll_validation ⟨[], [], 1, 0⟩ none none "Q?" ["a"]
      (Or.inr (by decide))⟩

/-- C9: getPollById consults no session, so any caller (authenticated or
not) gets the same answer; a missing poll yields the not-found error,
and a store failure is surfaced as the very same result, which is also
the result on a store holding no polls at all. -/
theorem c9_getPollById_open_notfound (db : DB) (s1 s2 : Option User)
    (id : Nat) (m : String) :
    getPollById db s1 none id = getPollById db s2 none id ∧
    (db.polls.filter (fun p => p.id == id) = [] →
      getPollById db s1 none id = ⟨none, some ("Poll not found.")⟩) ∧
    getPollById db s1 (some m) id = ⟨none, some ("Poll not found.")⟩ ∧
    getPollById db s1 (some m) id
      = getPollById ⟨[], db.votes, db.nextId, db.now⟩ s1 none id := by
  refine ⟨rfl, ?_, rfl, rfl⟩
  intro h
  simp only [getPollById]
  rw [h]

/-- Witness for C9: a store with no polls reports the not-found error. -/
theorem c9_getPollById_open_notfound_witness :
    getPollById ⟨[], [], 1, 0⟩ (some ⟨7, false⟩) none 3
      = ⟨none, some ("Poll not found.")⟩ :=
  (c9_getPollById_open_notfound ⟨[], [], 1, 0⟩ (some ⟨7, false⟩)
      (some ⟨8, true⟩) 3 ("boom")).2.1 rfl

/-- C10: a shape-valid updatePoll by an authenticated non-owner returns
success (error null) in both source variants, and its returned value is
identical to the value returned to any other user, the owner included,
so the caller is never told the mutation was refused. -/
theorem c10_updatePoll_nonowner_silent_success (db : DB) (P : Poll)
    (u v : User) (q : String) (opts : List String)
    (hP : P ∈ db.polls) (hown : P.user_id ≠ u.id)
    (hval : ¬(q = "" ∨ (opts.filter (fun s => !s.isEmpty)).length < 2)) :
    (updatePoll db (some u) none P.id q opts).ret.error = none ∧
    (updatePoll db (some u) none P.id q opts).ret
      = (updatePoll db (some v) none P.id q opts).ret ∧
    (updatePollV2 db (some u) none P.id q opts).ret.error = none := by
  simp [updatePoll, updatePollV2, if_neg hval]

/-- Witness for C10: a non-owner update of a concrete poll reports
success. -/
theorem c10_updatePoll_nonowner_silent_success_witness :
    (updatePoll ⟨[⟨1, 10, "Q?", ["a", "b"], 0⟩], [], 2, 3⟩ (some ⟨7, false⟩)
        none 1 "New?" ["x", "y"]).ret.error = none :=
  (c10_updatePoll_nonowner_silent_success
      ⟨[⟨1, 10, "Q?", ["a", "b"], 0⟩], [], 2, 3⟩
      ⟨1, 10, "Q?", ["a", "b"], 0⟩ ⟨7, false⟩ ⟨10, false⟩ "New?" ["x", "y"]
      (by decide) (by decide) (by decide)).1

/-- Under distinct poll ids, deleting the rows that match an id and pass a
policy, then filtering on that id, finds the row exactly when the policy
spared it. -/
theorem filter_after_delete (l : List Poll) (P : Poll) (q : Poll → Bool)
    (hn : (l.map Poll.id).Nodup) (hP : P ∈ l) :
    (l.filter (fun p => !(p.id == P.id && q p))).filter
        (fun p => p.id == P.id) = if q P then [] else [P] := by
  induction l with
  | nil => cases hP
  | cons a t ih =>
    simp only [List.map_cons, List.nodup_cons] at hn
    rcases List.mem_cons.mp hP with rfl | hPt
    · have ht : ∀ r : Poll → Bool,
          (t.filter r).filter (fun p => p.id == P.id) = [] := by
        intro r
        apply List.filter_eq_nil_iff.mpr
        intro b hb
        have hbid : b.id ≠ P.id := by
          intro he
          exact hn.1 (he ▸ List.mem_map_of_mem Poll.id (List.mem_of_mem_filter hb))
        simp [beq_eq_false_iff_ne.mpr hbid]
      by_cases hq : q P
      · simp [List.filter_cons, hq, ht]
      · simp [List.filter_cons, hq, ht]
    · have ha : a.id ≠ P.id := by
        intro he
        exact hn.1 (he ▸ List.mem_map_of_mem Poll.id hPt)
      have hbeq : (a.id == P.id) = false := beq_eq_false_iff_ne.mpr ha
      rw [List.filter_cons]
      rw [if_pos (by simp [hbeq])]
      rw [List.filter_cons]
      rw [if_neg (by simp [hbeq])]
      exact ih hn.2 hPt

/-- C1: with the store delete policy in force, deletePoll by a user who
is neither the owner nor an admin leaves the poll fetchable unchanged by
getPollById, while deletePoll by the owner succeeds and makes a
subsequent getPollById report the not-found error. -/
theorem c1_deletePoll_ownership (db : DB) (P : Poll) (u : User)
    (hn : (db.polls.map Poll.id).Nodup) (hP : P ∈ db.polls) :
    (P.user_id ≠ u.id ∧ u.isAdmin = false →
      getPollById (deletePoll db (some u) none P.id).db (some u) none P.id
        = ⟨some P, none⟩) ∧
    (P.user_id = u.id →
      (deletePoll db (some u) none P.id).ret.error = none ∧
      getPollById (deletePoll db (some u) none P.id).db (some u) none P.id
        = ⟨none, some ("Poll not found.")⟩) := by
  have hmain := filter_after_delete db.polls P (rlsMayDelete (some u)) hn hP
  constructor
  · rintro ⟨hown, hadm⟩
    have hbeq : (u.id == P.user_id) = false :=
      beq_eq_false_iff_ne.mpr (fun h => hown h.symm)
    have hq : rlsMayDelete (some u) P = false := by
      simp [rlsMayDelete, hadm, hbeq]
    rw [hq] at hmain
    rw [if_neg Bool.false_ne_true] at hmain
    simp only [deletePoll, getPollById]
    rw [hmain]
  · intro hown
    have hq : rlsMayDelete (some u) P = true := by
      simp [rlsMayDelete, hown]
    rw [hq] at hmain
    rw [if_pos rfl] at hmain
    refine ⟨rfl, ?_⟩
    simp only [deletePoll, getPollById]
    rw [hmain]

/-- Witness for C1 at a concrete store: a distinct non-admin user leaves
the poll fetchable; the owner makes it report not-found. -/
theorem c1_deletePoll_ownership_witness :
    getPollById (deletePoll ⟨[⟨1, 10, "Q?", ["a", "b"], 0⟩], [], 2, 3⟩
        (some ⟨7, false⟩) none 1).db (some ⟨7, false⟩) none 1
      = ⟨some ⟨1, 10, "Q?", ["a", "b"], 0⟩, none⟩ ∧
    getPollById (deletePoll ⟨[⟨1, 10, "Q?", ["a", "b"], 0⟩], [], 2, 3⟩
        (some ⟨10, false⟩) none 1).db (some ⟨10, false⟩) none 1
      = ⟨none, some ("Poll not found.")⟩ :=
  ⟨(c1_deletePoll_ownership ⟨[⟨1, 10, "Q?", ["a", "b"], 0⟩], [], 2, 3⟩
      ⟨1, 10, "Q?", ["a", "b"], 0⟩ ⟨7, false⟩ (by decide) (by decide)).1
      ⟨by decide, rfl⟩,
   ((c1_deletePoll_ownership ⟨[⟨1, 10, "Q?", ["a", "b"], 0⟩], [], 2, 3⟩
      ⟨1, 10, "Q?", ["a", "b"], 0⟩ ⟨10, false⟩ (by decide) (by decide)).2
      rfl).2⟩

/-- C4: a shape-valid updatePoll by an authenticated user who is not the
poll owner matches zero rows: the database is unchanged and a subsequent
getPollById still returns the poll with its original question and
options. -/
theorem c4_updatePoll_nonowner_frame (db : DB) (P : Poll) (u : User)
    (q : String) (opts : List String)
    (hn : (db.polls.map Poll.id).Nodup) (hP : P ∈ db.polls)
    (hown : P.user_id ≠ u.id)
    (hval : ¬(q = "" ∨ (opts.filter (fun s => !s.isEmpty)).length < 2)) :
    (updatePoll db (some u) none P.id q opts).db = db ∧
    getPollById (updatePoll db (some u) none P.id q opts).db none none P.id
      = ⟨some P, none⟩ := by
  have hmap : db.polls.map (fun p =>
      if p.id == P.id && p.user_id == u.id then
        (⟨p.id, p.user_id, q, opts.filter (fun s => !s.isEmpty),
          p.created_at⟩ : Poll)
      else p) = db.polls := by
    apply map_eq_self_of
    intro p hp
    by_cases hid : p.id = P.id
    · have hpP : p = P := eq_of_mem_id_eq db.polls P p hn hP hp hid
      subst hpP
      rw [if_neg (by simp [beq_eq_false_iff_ne.mpr hown])]
    · rw [if_neg (by simp [beq_eq_false_iff_ne.mpr hid])]
  have hdb : (updatePoll db (some u) none P.id q opts).db = db := by
    simp only [updatePoll, if_neg hval]
    rw [hmap]
  refine ⟨hdb, ?_⟩
  rw [hdb]
  have hf := filter_id_of_nodup db.polls P hn hP
  simp only [getPollById]
  rw [hf]

/-- Witness for C4 at a concrete store: a non-owner update leaves the
store unchanged and the poll fetchable as created. -/
theorem c4_updatePoll_nonowner_frame_witness :
    (updatePoll ⟨[⟨1, 10, "Q?", ["a", "b"], 0⟩], [], 2, 3⟩ (some ⟨7, false⟩)
        none 1 "New?" ["x", "y"]).db
      = ⟨[⟨1, 10, "Q?", ["a", "b"], 0⟩], [], 2, 3⟩ ∧
    getPollById (updatePoll ⟨[⟨1, 10, "Q?", ["a", "b"], 0⟩], [], 2, 3⟩
        (some ⟨7, false⟩) none 1 "New?" ["x", "y"]).db none none 1
      = ⟨some ⟨1, 10, "Q?", ["a", "b"], 0⟩, none⟩ :=
  c4_updatePoll_nonowner_frame ⟨[⟨1, 10, "Q?", ["a", "b"], 0⟩], [], 2, 3⟩
    ⟨1, 10, "Q?", ["a", "b"], 0⟩ ⟨7, false⟩ "New?" ["x", "y"]
    (by decide) (by decide) (by decide) (by decide)

/-- C6 counterexample: two successful createPoll calls that persist
different polls return the very same value to the caller ({ error: null }),
so the value returned does not carry the created poll. -/
theorem c6_createPoll_return_counterexample :
    (createPoll ⟨[], [], 1, 50⟩ (some ⟨10, false⟩) none "Q1?" ["a", "b"]).ret
      = (createPoll ⟨[], [], 1, 50⟩ (some ⟨10, false⟩) none "Q2?" ["a", "b"]).ret ∧
    (createPoll ⟨[], [], 1, 50⟩ (some ⟨10, false⟩) none "Q1?" ["a", "b"]).ret.error
      = none ∧
    (createPoll ⟨[], [], 1, 50⟩ (some ⟨10, false⟩) none "Q1?" ["a", "b"]).db.polls
      ≠ (createPoll ⟨[], [], 1, 50⟩ (some ⟨10, false⟩) none "Q2?" ["a", "b"]).db.polls := by
  refine ⟨rfl, rfl, ?_⟩
  decide

/-- C6 amended: on success createPoll persists exactly one new poll,
owned by the acting user and carrying the submitted question and
non-empty options, leaves the votes table untouched, signals that /polls
is stale, and returns only the success indicator (error null), not the
created poll. -/
theorem c6_createPoll_success_effects (db : DB) (u : User) (q : String)
    (opts : List String)
    (hval : ¬(q = "" ∨ (opts.filter (fun s => !s.isEmpty)).length < 2)) :
    createPoll db (some u) none q opts
      = ⟨⟨db.polls ++ [⟨db.nextId, u.id, q,
            opts.filter (fun s => !s.isEmpty), db.now⟩],
          db.votes, db.nextId + 1, db.now⟩,
         ["/polls"], ⟨none⟩⟩ := by
  simp only [createPoll, if_neg hval]

/-- Witness for the amended C6 at a concrete input. -/
theorem c6_createPoll_success_effects_witness :
    createPoll ⟨[], [], 1, 50⟩ (some ⟨10, false⟩) none "Best color?" ["Red", "Blue"]
      = ⟨⟨[⟨1, 10, "Best color?", ["Red", "Blue"], 50⟩], [], 2, 50⟩,
         ["/polls"], ⟨none⟩⟩ :=
  c6_createPoll_success_effects ⟨[], [], 1, 50⟩ ⟨10, false⟩ "Best color?"
    ["Red", "Blue"] (by decide)

/-- C7 counterexample: in the second createPoll variant two distinct
store failures surface two distinct errors, each carrying the store
message verbatim, so the surfaced error is neither uniform nor free of
internal detail. -/
theorem c7_store_detail_counterexample :
    (createPollV2 ⟨[], [], 1, 0⟩ (some ⟨10, false⟩)
        (some ("duplicate key value violates unique constraint"))
        "Q?" ["a", "b"]).ret.error
      = some ("duplicate key value violates unique constraint") ∧
    (createPollV2 ⟨[], [], 1, 0⟩ (some ⟨10, false⟩)
        (some ("connection reset by peer")) "Q?" ["a", "b"]).ret.error
      = some ("connection reset by peer") ∧
    (createPollV2 ⟨[], [], 1, 0⟩ (some ⟨10, false⟩)
        (some ("duplicate key value violates unique constraint"))
        "Q?" ["a", "b"]).ret
      ≠ (createPollV2 ⟨[], [], 1, 0⟩ (some ⟨10, false⟩)
        (some ("connection reset by peer")) "Q?" ["a", "b"]).ret := by
  refine ⟨rfl, rfl, ?_⟩
  decide

/-- C7 amended: the first-variant operations surface fixed generic
messages on any store failure (the same error for any two failures),
while the second variants of createPoll and updatePoll forward the store
error message verbatim to the caller. -/
theorem c7_store_error_surfacing (db : DB) (u : User) (q : String)
    (opts : List String) (pid : Nat) (i : Int) (m1 m2 : String)
    (hval : ¬(q = "" ∨ (opts.filter (fun s => !s.isEmpty)).length < 2)) :
    (createPoll db (some u) (some m1) q opts).ret
      = (createPoll db (some u) (some m2) q opts).ret ∧
    (createPoll db (some u) (some m1) q opts).ret.error
      = some ("Failed to create the poll.") ∧
    (updatePoll db (some u) (some m1) pid q opts).ret.error
      = some ("Failed to update poll.") ∧
    (deletePoll db (some u) (some m1) pid).ret.error
      = some ("Failed to delete poll.") ∧
    (submitVote db (some u) (some m1) pid i).ret.error
      = some ("Failed to submit vote.") ∧
    (getPollById db (some u) (some m1) pid).error
      = some ("Poll not found.") ∧
    (getUserPolls db (some u) (some m1)).error
      = some ("Failed to fetch polls.") ∧
    (createPollV2 db (some u) (some m1) q opts).ret.error = some m1 ∧
    (updatePollV2 db (some u) (some m1) pid q opts).ret.error = some m1 := by
  simp [createPoll, createPollV2, updatePoll, updatePollV2, deletePoll,
    submitVote, getPollById, getUserPolls, if_neg hval]

/-- Witness for the amended C7 at concrete inputs. -/
theorem c7_store_error_surfacing_witness :
    (createPoll ⟨[], [], 1, 0⟩ (some ⟨10, false⟩) (some ("boom a")) "Q?"
        ["a", "b"]).ret.error = some ("Failed to create the poll.") ∧
    (createPollV2 ⟨[], [], 1, 0⟩ (some ⟨10, false⟩) (some ("boom a")) "Q?"
        ["a", "b"]).ret.error = some ("boom a") :=
  ⟨(c7_store_error_surfacing ⟨[], [], 1, 0⟩ ⟨10, false⟩ "Q?" ["a", "b"] 1 0
      ("boom a") ("boom b") (by decide)).2.1,
   (c7_store_error_surfacing ⟨[], [], 1, 0⟩ ⟨10, false⟩ "Q?" ["a", "b"] 1 0
      ("boom a") ("boom b") (by decide)).2.2.2.2.2.2.2.1⟩

/-- C8: getUserPolls requires an authenticated user (with no session it
returns an empty list and an auth error), and for an authenticated user
returns exactly the polls whose user_id equals that user's id, ordered
newest-first by created_at; a user owning zero polls gets an empty list
with no error. -/
theorem c8_getUserPolls_owner_listing (db : DB) (u : User) :
    (getUserPolls db (some u) none).error = none ∧
    (∀ p, p ∈ (getUserPolls db (some u) none).polls ↔
      p ∈ db.polls ∧ p.user_id = u.id) ∧
    (getUserPolls db (some u) none).polls.Pairwise
      (fun a b => b.created_at ≤ a.created_at) ∧
    (db.polls.filter (fun p => p.user_id == u.id) = [] →
      (getUserPolls db (some u) none).polls = []) ∧
    getUserPolls db none none = ⟨[], some ("Not authenticated")⟩ := by
  refine ⟨rfl, ?_, ?_, ?_, rfl⟩
  · intro p
    show p ∈ List.mergeSort (db.polls.filter (fun q => q.user_id == u.id))
        (fun a b => decide (b.created_at ≤ a.created_at)) ↔ _
    rw [List.mem_mergeSort, List.mem_filter]
    simp
  · show (List.mergeSort (db.polls.filter (fun q => q.user_id == u.id))
        (fun a b => decide (b.created_at ≤ a.created_at))).Pairwise
        (fun a b => b.created_at ≤ a.created_at)
    have htrans : ∀ a b c : Poll,
        decide (b.created_at ≤ a.created_at) = true →
        decide (c.created_at ≤ b.created_at) = true →
        decide (c.created_at ≤ a.created_at) = true := by
      intro a b c hab hbc
      simp only [decide_eq_true_eq] at hab hbc ⊢
      omega
    have htotal : ∀ a b : Poll,
        (decide (b.created_at ≤ a.created_at) ||
          decide (a.created_at ≤ b.created_at)) = true := by
      intro a b
      rcases Nat.le_total b.created_at a.created_at with h | h <;> simp [h]
    have hs := List.sorted_mergeSort htrans htotal
      (db.polls.filter (fun q => q.user_id == u.id))
    exact hs.imp (fun h => by simpa using h)
  · intro h
    show List.mergeSort (db.polls.filter (fun q => q.user_id == u.id))
        (fun a b => decide (b.created_at ≤ a.created_at)) = []
    rw [h]
    exact List.mergeSort_nil

/-- Witness for C8: a user owning zero polls gets an empty list and no
error. -/
theorem c8_getUserPolls_owner_listing_witness :
    (getUserPolls ⟨[⟨1, 99, "Q?", ["a", "b"], 0⟩], [], 2, 3⟩ (some ⟨7, false⟩)
        none).polls = [] ∧
    (getUserPolls ⟨[⟨1, 99, "Q?", ["a", "b"], 0⟩], [], 2, 3⟩ (some ⟨7, false⟩)
        none).error = none :=
  ⟨(c8_getUserPolls_owner_listing ⟨[⟨1, 99, "Q?", ["a", "b"], 0⟩], [], 2, 3⟩
      ⟨7, false⟩).2.2.2.1 (by decide),
   (c8_getUserPolls_owner_listing ⟨[⟨1, 99, "Q?", ["a", "b"], 0⟩], [], 2, 3⟩
      ⟨7, false⟩).1⟩
